import Mathlib

/-!
Shallow embedding of the `GallerySlider` component of `src/js/main.js`
(lines 425-542) and verification of the spec's claims about it.

The slider state is the DOM-visible data the class manipulates: the
`active` flag of each `.gallery-slide` element, the `.slider-dots`
container with the dots it holds, and the JS number `this.currentIndex`.
JS `NaN` (produced by `x % 0` when there are no slides) is modelled as
`none`. Methods that can throw a `TypeError` part-way return `Except`,
with `.error` carrying the state as mutated up to the throw, exactly as
the JS object is left when the exception propagates.
-/

set_option maxHeartbeats 1000000

deriving instance DecidableEq for Except

namespace PrSite

/-- One indicator dot created by `createDots` (src/js/main.js:483-490):
`target` is the slide index captured by the dot's click listener
(`dot.addEventListener('click', () => this.showSlide(index))`), and
`active` records whether the dot currently carries the `active` class. -/
structure Dot where
  target : Nat
  active : Bool
deriving DecidableEq, Repr

/-- DOM-visible state of the gallery slider: the `active` flag of each
`.gallery-slide`, the `.slider-dots` container (`none` when the element is
missing from the page) with the dots it holds, and the JS number
`this.currentIndex` (`none` models `NaN`). -/
structure SliderState where
  slides : List Bool
  dots : Option (List Dot)
  currentIndex : Option Int
deriving DecidableEq, Repr

/-- JS addition on index values: `NaN` propagates. -/
def jsAdd : Option Int → Int → Option Int
  | none, _ => none
  | some a, b => some (a + b)

/-- JS remainder `a % len` as used with `this.slides.length`: `x % 0` is
`NaN`, otherwise the truncated remainder (sign of the dividend), which on
integers is `Int.tmod`. -/
def jsMod : Option Int → Nat → Option Int
  | none, _ => none
  | some a, len => if len = 0 then none else some (Int.tmod a (len : Int))

/-- JS array access `this.slides[v]` yields an element exactly for an
integer `v` with `0 ≤ v < len`; `NaN` or an out-of-range value reads
`undefined` (and `undefined.classList` then throws). -/
def idxValid : Option Int → Nat → Option Nat
  | none, _ => none
  | some v, len => if 0 ≤ v ∧ v < (len : Int) then some v.toNat else none

/-- JS strict equality `i === this.currentIndex` for a dot position `i`
(`NaN` compares unequal to everything). -/
def jsEqIdx (j : Nat) : Option Int → Bool
  | none => false
  | some v => decide ((j : Int) = v)

/-- The loop `dots.forEach((dot, i) => dot.classList.toggle('active',
i === this.currentIndex))` of src/js/main.js:502-504; `k` is the running
`forEach` counter. -/
def toggleDotsFrom (idx : Option Int) : Nat → List Dot → List Dot
  | _, [] => []
  | k, d :: ds => { d with active := jsEqIdx k idx } :: toggleDotsFrom idx (k + 1) ds

/-- Dot update performed at the end of `showSlide`. -/
def toggleDots (ds : List Dot) (idx : Option Int) : List Dot :=
  toggleDotsFrom idx 0 ds

/-- Method `showSlide(index)` (src/js/main.js:492-505). It mutates in
steps: removes `active` from every slide, assigns
`this.currentIndex = index`, then accesses
`this.slides[this.currentIndex].classList` — a TypeError there (invalid
index) or at `this.dotsContainer.querySelectorAll` (missing container)
aborts the method, keeping the mutations made so far. -/
def showSlide (s : SliderState) (index : Option Int) : Except SliderState SliderState :=
  let slides1 := s.slides.map (fun _ => false)
  match idxValid index s.slides.length with
  | none => .error { slides := slides1, dots := s.dots, currentIndex := index }
  | some i =>
    match s.dots with
    | none => .error { slides := slides1.set i true, dots := none, currentIndex := index }
    | some ds =>
        .ok { slides := slides1.set i true, dots := some (toggleDots ds index),
              currentIndex := index }

/-- Method `nextSlide()` (src/js/main.js:507-510):
`showSlide((currentIndex + 1) % slides.length)`. -/
def nextSlide (s : SliderState) : Except SliderState SliderState :=
  showSlide s (jsMod (jsAdd s.currentIndex 1) s.slides.length)

/-- Method `prevSlide()` (src/js/main.js:512-515):
`showSlide((currentIndex - 1 + slides.length) % slides.length)`. -/
def prevSlide (s : SliderState) : Except SliderState SliderState :=
  showSlide s (jsMod (jsAdd (jsAdd s.currentIndex (-1)) (s.slides.length : Int))
    s.slides.length)

/-- Method `handleSwipe(startX, endX)` (src/js/main.js:517-528):
threshold 50, transition iff `Math.abs(diff) > threshold`, `diff > 0`
picks `nextSlide`, otherwise `prevSlide`. -/
def handleSwipe (s : SliderState) (startX endX : Int) : Except SliderState SliderState :=
  let diff := startX - endX
  if 50 < diff.natAbs then
    if 0 < diff then nextSlide s else prevSlide s
  else
    .ok s

/-- A constructed `GallerySlider` object: its slider state plus whether
`init()` reached the listener wiring (prev/next buttons, keyboard, touch)
of src/js/main.js:447-473. -/
structure Gallery where
  state : SliderState
  listenersAttached : Bool
deriving DecidableEq, Repr

/-- Constructor `new GallerySlider()` (src/js/main.js:425-490) on a page
whose `.gallery-slider` element exists: `slides0` holds the initial active
flags of the `.gallery-slide` elements, `container` the `.slider-dots`
element (`none` when missing) with any dots already inside. With zero
slides the constructor returns before `init()`; otherwise `init()` runs
`createDots()` — which throws at `this.dotsContainer.appendChild` when the
container is `null` — then `showSlide(0)`, then attaches the navigation
listeners. `.error` carries the object as left by the thrown TypeError. -/
def construct (slides0 : List Bool) (container : Option (List Dot)) : Except Gallery Gallery :=
  let s0 : SliderState := { slides := slides0, dots := container, currentIndex := some 0 }
  if slides0.length = 0 then
    .ok { state := s0, listenersAttached := false }
  else
    match container with
    | none => .error { state := s0, listenersAttached := false }
    | some ds =>
        let s1 : SliderState :=
          { s0 with dots := some (ds ++ (List.range slides0.length).map fun i => ⟨i, false⟩) }
        match showSlide s1 (some 0) with
        | .error e => .error { state := e, listenersAttached := false }
        | .ok s2 => .ok { state := s2, listenersAttached := true }

/-- Clicking the dot at position `j` of the container: the listener
registered in `createDots` runs `showSlide` at the captured index. -/
def clickDot (s : SliderState) (j : Nat) : Except SliderState SliderState :=
  match s.dots with
  | none => .ok s
  | some ds =>
    match ds[j]? with
    | none => .ok s
    | some d => showSlide s (some (d.target : Int))

/-- The auto-play machinery (src/js/main.js:530-541) together with the
runtime's interval table: `armed` lists the ids of intervals currently
scheduled (each fires `nextSlide` every 5000 ms), `nextId` is the id the
next `setInterval` call returns (browser interval ids are positive
integers, handed out increasingly), `autoPlayInterval` the field
`this.autoPlayInterval`. -/
structure AutoPlayState where
  armed : List Nat
  nextId : Nat
  autoPlayInterval : Option Nat
deriving DecidableEq, Repr

/-- State at construction: `this.autoPlayInterval = null`, no interval
scheduled. -/
def initAutoPlay : AutoPlayState := { armed := [], nextId := 1, autoPlayInterval := none }

/-- Method `startAutoPlay()` (src/js/main.js:530-534): unconditionally
arms a new interval and overwrites the stored handle with its id. -/
def startAutoPlay (a : AutoPlayState) : AutoPlayState :=
  { armed := a.armed ++ [a.nextId], nextId := a.nextId + 1,
    autoPlayInterval := some a.nextId }

/-- Method `stopAutoPlay()` (src/js/main.js:536-541): when the handle is
set (interval ids are positive, hence truthy), clears that interval and
nulls the handle. -/
def stopAutoPlay (a : AutoPlayState) : AutoPlayState :=
  match a.autoPlayInterval with
  | none => a
  | some h => { a with armed := a.armed.erase h, autoPlayInterval := none }

/-- Slide flags with exactly index `i` active. -/
def oneHotB (n i : Nat) : List Bool := (List.range n).map fun j => decide (j = i)

/-- The dots as created by `createDots`, with exactly dot `i` active. -/
def canonDots (n i : Nat) : List Dot := (List.range n).map fun j => ⟨j, decide (j = i)⟩

/-- The display state showing slide `i` of `n`. -/
def canon (n i : Nat) : SliderState :=
  { slides := oneHotB n i, dots := some (canonDots n i), currentIndex := some (i : Int) }

/-- Exactly the slide and the dot at position `i` are active. -/
def activeExactlyAt (s : SliderState) (i : Nat) : Prop :=
  (∀ j, (h : j < s.slides.length) → s.slides.get ⟨j, h⟩ = decide (j = i)) ∧
  ∃ ds, s.dots = some ds ∧ ∀ j, (h : j < ds.length) → (ds.get ⟨j, h⟩).active = decide (j = i)

/-- The spec invariant: `n` slides, the `n` dots created by `createDots`
in slide order, and exactly one slide and one dot active, both at
`currentIndex`. -/
def Inv (n : Nat) (s : SliderState) : Prop :=
  s.slides.length = n ∧
  (∃ ds, s.dots = some ds ∧ ds.map Dot.target = List.range n) ∧
  ∃ i, i < n ∧ s.currentIndex = some (i : Int) ∧ activeExactlyAt s i

/-- Run `k` successive calls of a navigation method, stopping at a thrown
TypeError. -/
def stepIter (f : SliderState → Except SliderState SliderState) :
    Nat → SliderState → Except SliderState SliderState
  | 0, s => .ok s
  | k + 1, s =>
    match f s with
    | .ok t => stepIter f k t
    | .error e => .error e

/-! Basic shape lemmas about the canonical states. -/

theorem length_oneHotB (n i : Nat) : (oneHotB n i).length = n := by
  simp [oneHotB]

theorem canon_slides_length (n i : Nat) : (canon n i).slides.length = n := by
  simp [canon, length_oneHotB]

theorem canonDots_map_target (n i : Nat) : (canonDots n i).map Dot.target = List.range n := by
  simp only [canonDots, List.map_map, Function.comp]
  exact List.map_id' _

/-- The `forEach` dot toggle turns any dot row created by `createDots`
into the row whose unique active dot sits at `i`. -/
theorem toggleDotsFrom_canon (i : Nat) :
    ∀ (ds : List Dot) (k n : Nat), ds.map Dot.target = List.range' k n →
      toggleDotsFrom (some (i : Int)) k ds =
        (List.range' k n).map fun j => ⟨j, decide (j = i)⟩ := by
  intro ds
  induction ds with
  | nil =>
    intro k n h
    cases n with
    | zero => simp [toggleDotsFrom]
    | succ m => rw [List.range'_succ] at h; simp at h
  | cons d ds ih =>
    intro k n h
    cases n with
    | zero => simp at h
    | succ m =>
      rw [List.range'_succ] at h
      simp only [List.map_cons, List.cons.injEq] at h
      obtain ⟨hd, hds⟩ := h
      rw [toggleDotsFrom, List.range'_succ, List.map_cons]
      congr 1
      · cases d with
        | mk t a =>
          simp only [Dot.mk.injEq] at hd ⊢
          exact ⟨hd, by simp [jsEqIdx, Nat.cast_inj]⟩
      · exact ih (k + 1) m hds

theorem replicate_set_oneHotB {n i : Nat} (hi : i < n) :
    (List.replicate n false).set i true = oneHotB n i := by
  apply List.ext_get
  · simp [oneHotB]
  · intro j h1 h2
    simp only [List.get_eq_getElem, List.getElem_set, List.getElem_replicate,
      oneHotB, List.getElem_map, List.getElem_range]
    by_cases hij : i = j
    · subst hij; simp
    · simp [hij, Ne.symm hij]

theorem idxValid_of_lt {i n : Nat} (hi : i < n) : idxValid (some (i : Int)) n = some i := by
  have h : (0 : Int) ≤ (i : Int) ∧ (i : Int) < (n : Int) :=
    ⟨Int.natCast_nonneg i, by exact_mod_cast hi⟩
  simp [idxValid, h]

theorem jsMod_natCast {a n : Nat} (hn : n ≠ 0) :
    jsMod (some (a : Int)) n = some ((a % n : Nat) : Int) := by
  simp only [jsMod, hn, if_false]
  exact congrArg some (Int.ofNat_tmod a n).symm

/-- On a deck with `n` slides and the dots created by `createDots`,
`showSlide` at a valid index yields exactly the canonical state. -/
theorem showSlide_canon (s : SliderState) (n : Nat) (ds : List Dot) (i : Nat)
    (hlen : s.slides.length = n) (hds : s.dots = some ds)
    (ht : ds.map Dot.target = List.range n) (hi : i < n) :
    showSlide s (some (i : Int)) = .ok (canon n i) := by
  have h1 : s.slides.map (fun _ => false) = List.replicate n false := by
    rw [List.map_const', hlen]
  have h2 : toggleDots ds (some (i : Int)) = canonDots n i := by
    rw [toggleDots, toggleDotsFrom_canon i ds 0 n (by rw [ht, List.range_eq_range']),
      canonDots, List.range_eq_range']
  simp only [showSlide, hds, hlen, idxValid_of_lt hi]
  rw [h1, replicate_set_oneHotB hi, h2]
  rfl

/-- On such a deck with `currentIndex = i < n`, `nextSlide` lands on the
canonical state at `(i + 1) % n`. -/
theorem nextSlide_shape (s : SliderState) (n : Nat) (ds : List Dot) (i : Nat)
    (hlen : s.slides.length = n) (hds : s.dots = some ds)
    (ht : ds.map Dot.target = List.range n) (hidx : s.currentIndex = some (i : Int))
    (hi : i < n) :
    nextSlide s = .ok (canon n ((i + 1) % n)) := by
  have hadd : jsAdd (some (i : Int)) 1 = some ((i + 1 : Nat) : Int) := by
    simp [jsAdd]
  rw [nextSlide, hidx, hlen, hadd, jsMod_natCast (by omega)]
  exact showSlide_canon s n ds _ hlen hds ht (Nat.mod_lt _ (by omega))

/-- Likewise `prevSlide` lands on the canonical state at `(i + n - 1) % n`. -/
theorem prevSlide_shape (s : SliderState) (n : Nat) (ds : List Dot) (i : Nat)
    (hlen : s.slides.length = n) (hds : s.dots = some ds)
    (ht : ds.map Dot.target = List.range n) (hidx : s.currentIndex = some (i : Int))
    (hi : i < n) :
    prevSlide s = .ok (canon n ((i + n - 1) % n)) := by
  have hadd : jsAdd (jsAdd (some (i : Int)) (-1)) (n : Int) = some ((i + n - 1 : Nat) : Int) := by
    simp only [jsAdd, Option.some.injEq]
    omega
  rw [prevSlide, hidx, hlen, hadd, jsMod_natCast (by omega)]
  exact showSlide_canon s n ds _ hlen hds ht (Nat.mod_lt _ (by omega))

theorem nextSlide_canon {n i : Nat} (hi : i < n) :
    nextSlide (canon n i) = .ok (canon n ((i + 1) % n)) :=
  nextSlide_shape _ n (canonDots n i) i (canon_slides_length n i) rfl
    (canonDots_map_target n i) rfl hi

theorem prevSlide_canon {n i : Nat} (hi : i < n) :
    prevSlide (canon n i) = .ok (canon n ((i + n - 1) % n)) :=
  prevSlide_shape _ n (canonDots n i) i (canon_slides_length n i) rfl
    (canonDots_map_target n i) rfl hi

theorem stepIter_next {n : Nat} (k : Nat) :
    ∀ i, i < n → stepIter nextSlide k (canon n i) = .ok (canon n ((i + k) % n)) := by
  induction k with
  | zero => intro i hi; simp [stepIter, Nat.mod_eq_of_lt hi]
  | succ k ih =>
    intro i hi
    have hn : 0 < n := by omega
    simp only [stepIter, nextSlide_canon hi]
    rw [ih ((i + 1) % n) (Nat.mod_lt _ hn)]
    have harith : ((i + 1) % n + k) % n = (i + (k + 1)) % n := by
      rw [Nat.mod_add_mod]; congr 1; omega
    rw [harith]

theorem stepIter_prev {n : Nat} (k : Nat) :
    ∀ i, i < n → stepIter prevSlide k (canon n i) = .ok (canon n ((i + k * (n - 1)) % n)) := by
  induction k with
  | zero => intro i hi; simp [stepIter, Nat.mod_eq_of_lt hi]
  | succ k ih =>
    intro i hi
    have hn : 0 < n := by omega
    simp only [stepIter, prevSlide_canon hi]
    rw [ih ((i + n - 1) % n) (Nat.mod_lt _ hn)]
    have harith : ((i + n - 1) % n + k * (n - 1)) % n = (i + (k + 1) * (n - 1)) % n := by
      rw [Nat.mod_add_mod]
      congr 1
      rw [Nat.succ_mul]
      omega
    rw [harith]

/-- The index reached by `k` backward steps agrees with `(−k) mod n`. -/
theorem prev_index_cast {n k : Nat} (hn : 1 ≤ n) :
    (((k * (n - 1)) % n : Nat) : Int) = (-(k : Int)) % (n : Int) := by
  have h1 : ((k * (n - 1) : Nat) : Int) = -(k : Int) + (k : Int) * (n : Int) := by
    push_cast [Nat.cast_sub hn]
    ring
  rw [Int.natCast_mod, h1, Int.add_mul_emod_self]

/-! Invariant lemmas. -/

theorem activeExactlyAt_canon {n i : Nat} : activeExactlyAt (canon n i) i := by
  constructor
  · intro j h
    simp [canon, oneHotB]
  · refine ⟨canonDots n i, rfl, ?_⟩
    intro j h
    simp [canonDots]

theorem Inv_canon {n i : Nat} (hi : i < n) : Inv n (canon n i) :=
  ⟨canon_slides_length n i, ⟨canonDots n i, rfl, canonDots_map_target n i⟩,
   i, hi, rfl, activeExactlyAt_canon⟩

theorem Inv_next {n : Nat} {t : SliderState} (h : Inv n t) :
    ∃ u, nextSlide t = .ok u ∧ Inv n u := by
  obtain ⟨hlen, ⟨ds, hds, ht⟩, i, hi, hidx, -⟩ := h
  exact ⟨canon n ((i + 1) % n), nextSlide_shape t n ds i hlen hds ht hidx hi,
    Inv_canon (Nat.mod_lt _ (by omega))⟩

theorem Inv_prev {n : Nat} {t : SliderState} (h : Inv n t) :
    ∃ u, prevSlide t = .ok u ∧ Inv n u := by
  obtain ⟨hlen, ⟨ds, hds, ht⟩, i, hi, hidx, -⟩ := h
  exact ⟨canon n ((i + n - 1) % n), prevSlide_shape t n ds i hlen hds ht hidx hi,
    Inv_canon (Nat.mod_lt _ (by omega))⟩

theorem Inv_show {n : Nat} {t : SliderState} (h : Inv n t) {j : Nat} (hj : j < n) :
    ∃ u, showSlide t (some (j : Int)) = .ok u ∧ Inv n u := by
  obtain ⟨hlen, ⟨ds, hds, ht⟩, -⟩ := h
  exact ⟨canon n j, showSlide_canon t n ds j hlen hds ht hj, Inv_canon hj⟩

/-! The claims. -/

/-- C1: on a deck with `n ≥ 1` slides starting from index 0, `k` calls of
`nextSlide` leave `currentIndex = k mod n` and `k` calls of `prevSlide`
leave `currentIndex = (−k) mod n`, in both cases a valid index below `n`
(so in `[0, n−1]`); with `n = 3` the instances `k = 1, 2, 3` visit
indices 1, 2, 0. -/
theorem C1_next_prev_iterate (n k : Nat) (hn : 1 ≤ n) :
    (stepIter nextSlide k (canon n 0) = .ok (canon n (k % n)) ∧ k % n < n) ∧
    ∃ j, stepIter prevSlide k (canon n 0) = .ok (canon n j) ∧ j < n ∧
      (j : Int) = (-(k : Int)) % (n : Int) := by
  have hn0 : 0 < n := hn
  refine ⟨⟨?_, Nat.mod_lt _ hn0⟩,
    ⟨(k * (n - 1)) % n, ?_, Nat.mod_lt _ hn0, prev_index_cast hn⟩⟩
  · have h := stepIter_next (n := n) k 0 hn0
    simpa using h
  · have h := stepIter_prev (n := n) k 0 hn0
    simpa using h

/-- Witness for C1 at `n = 3`: three successive `nextSlide` calls visit
indices 1, 2, 0, and three `prevSlide` calls land on `(−3) mod 3 = 0`. -/
theorem C1_witness :
    stepIter nextSlide 1 (canon 3 0) = .ok (canon 3 1) ∧
    stepIter nextSlide 2 (canon 3 0) = .ok (canon 3 2) ∧
    stepIter nextSlide 3 (canon 3 0) = .ok (canon 3 0) ∧
    ∃ j, stepIter prevSlide 3 (canon 3 0) = .ok (canon 3 j) ∧ j < 3 ∧
      (j : Int) = (-(3 : Int)) % (3 : Int) :=
  ⟨(C1_next_prev_iterate 3 1 (by decide)).1.1,
   (C1_next_prev_iterate 3 2 (by decide)).1.1,
   (C1_next_prev_iterate 3 3 (by decide)).1.1,
   (C1_next_prev_iterate 3 3 (by decide)).2⟩

/-- C2: on a deck with `n ≥ 1` slides and the dots created by `createDots`,
`showSlide i` for any valid `i` yields the canonical state: exactly one
slide and one dot active, both at `i`, `currentIndex = i`; and this
"exactly one active, aligned with `currentIndex`" condition (`Inv`) is
preserved by `nextSlide`, `prevSlide` and `showSlide` at any valid index. -/
theorem C2_exactly_one_active_invariant (n : Nat) (s : SliderState) (ds : List Dot) (i : Nat)
    (hlen : s.slides.length = n) (hds : s.dots = some ds)
    (ht : ds.map Dot.target = List.range n) (hi : i < n) :
    (showSlide s (some (i : Int)) = .ok (canon n i) ∧
      (canon n i).currentIndex = some (i : Int) ∧
      (canon n i).slides.length = n ∧ activeExactlyAt (canon n i) i ∧ Inv n (canon n i)) ∧
    (∀ t, Inv n t →
      (∃ u, nextSlide t = .ok u ∧ Inv n u) ∧
      (∃ u, prevSlide t = .ok u ∧ Inv n u) ∧
      ∀ j, j < n → ∃ u, showSlide t (some (j : Int)) = .ok u ∧ Inv n u) := by
  refine ⟨⟨showSlide_canon s n ds i hlen hds ht hi, rfl, canon_slides_length n i,
    activeExactlyAt_canon, Inv_canon hi⟩, ?_⟩
  intro t h
  exact ⟨Inv_next h, Inv_prev h, fun j hj => Inv_show h hj⟩

/-- Witness for C2 on a two-slide deck currently showing slide 1:
`showSlide 0` yields the canonical state at 0, with exactly one slide and
one dot active. -/
theorem C2_witness :
    showSlide (canon 2 1) (some ((0 : Nat) : Int)) = .ok (canon 2 0) ∧
    activeExactlyAt (canon 2 0) 0 ∧ Inv 2 (canon 2 0) :=
  ⟨(C2_exactly_one_active_invariant 2 (canon 2 1) (canonDots 2 1) 0 rfl rfl
      (by decide) (by decide)).1.1,
   (C2_exactly_one_active_invariant 2 (canon 2 1) (canonDots 2 1) 0 rfl rfl
      (by decide) (by decide)).1.2.2.2.1,
   (C2_exactly_one_active_invariant 2 (canon 2 1) (canonDots 2 1) 0 rfl rfl
      (by decide) (by decide)).1.2.2.2.2⟩

/-- C3 (evaluating the code at the failing input): constructing with at
least one slide but a missing `.slider-dots` container throws a TypeError
inside `createDots` (at `this.dotsContainer.appendChild`), aborting
`init()` before any navigation listener (buttons, keyboard, swipe) is
attached — navigation is left non-functional; moreover even a direct
`showSlide` call at a valid index throws at
`this.dotsContainer.querySelectorAll`. -/
theorem C3_missing_container_crashes (slides0 : List Bool) (hn : 1 ≤ slides0.length) :
    construct slides0 none =
      .error { state := { slides := slides0, dots := none, currentIndex := some 0 },
               listenersAttached := false } ∧
    ∀ s : SliderState, s.dots = none → ∀ i : Nat, i < s.slides.length →
      ∃ e, showSlide s (some (i : Int)) = .error e ∧ e.dots = none := by
  constructor
  · simp only [construct]
    rw [if_neg (show ¬ slides0.length = 0 by omega)]
  · intro s hdots i hi
    exact ⟨{ slides := (s.slides.map fun _ => false).set i true, dots := none,
             currentIndex := some (i : Int) },
      by simp only [showSlide, idxValid_of_lt hi, hdots], rfl⟩

/-- Witness for C3: a one-slide page with no dots container. -/
theorem C3_witness :
    construct [false] none =
      .error { state := { slides := [false], dots := none, currentIndex := some 0 },
               listenersAttached := false } ∧
    ∃ e, showSlide ⟨[false], none, some ((0 : Nat) : Int)⟩ (some ((0 : Nat) : Int)) =
      .error e ∧ e.dots = none :=
  ⟨(C3_missing_container_crashes [false] (by decide)).1,
   (C3_missing_container_crashes [false] (by decide)).2
     ⟨[false], none, some ((0 : Nat) : Int)⟩ rfl 0 (by decide)⟩

/-- C4 counterexample: after construction with zero slides, a direct
`nextSlide()` call is not a safe no-op — `(0 + 1) % 0` is `NaN`,
`currentIndex` is overwritten with it (a state change) and
`this.slides[NaN].classList` throws a TypeError. -/
theorem C4_counterexample :
    construct [] (some []) =
      .ok { state := { slides := [], dots := some [], currentIndex := some 0 },
            listenersAttached := false } ∧
    nextSlide { slides := [], dots := some [], currentIndex := some 0 } =
      .error { slides := [], dots := some [], currentIndex := none } ∧
    (SliderState.mk [] (some []) none).currentIndex ≠
      (SliderState.mk [] (some []) (some 0)).currentIndex := by
  exact ⟨by decide, by decide, by decide⟩

/-- C4 amended: construction with zero slides creates no indicators and
attaches no event listeners, so the component is inert to every UI input;
but a direct call is not a safe no-op: `showSlide` throws on any argument,
and `nextSlide`/`prevSlide` overwrite `currentIndex` with `NaN` before
throwing. -/
theorem C4_zero_slides_inert (c : Option (List Dot)) :
    construct [] c =
      .ok { state := { slides := [], dots := c, currentIndex := some 0 },
            listenersAttached := false } ∧
    (∀ idx, showSlide { slides := [], dots := c, currentIndex := some 0 } idx =
      .error { slides := [], dots := c, currentIndex := idx }) ∧
    nextSlide { slides := [], dots := c, currentIndex := some 0 } =
      .error { slides := [], dots := c, currentIndex := none } ∧
    prevSlide { slides := [], dots := c, currentIndex := some 0 } =
      .error { slides := [], dots := c, currentIndex := none } := by
  refine ⟨by simp [construct], ?_, ?_, ?_⟩
  · intro idx
    cases idx with
    | none => simp [showSlide, idxValid]
    | some v =>
      have hv : ¬ ((0 : Int) ≤ v ∧ v < (0 : Int)) := by omega
      simp [showSlide, idxValid, hv]
  · simp [nextSlide, jsAdd, jsMod, showSlide, idxValid]
  · simp [prevSlide, jsAdd, jsMod, showSlide, idxValid]

/-- Witness for C4's amended statement at a page with an empty dots
container. -/
theorem C4_witness :
    construct [] (some []) =
      .ok { state := { slides := [], dots := some [], currentIndex := some 0 },
            listenersAttached := false } ∧
    (∀ idx, showSlide { slides := [], dots := some [], currentIndex := some 0 } idx =
      .error { slides := [], dots := some [], currentIndex := idx }) ∧
    nextSlide { slides := [], dots := some [], currentIndex := some 0 } =
      .error { slides := [], dots := some [], currentIndex := none } ∧
    prevSlide { slides := [], dots := some [], currentIndex := some 0 } =
      .error { slides := [], dots := some [], currentIndex := none } :=
  C4_zero_slides_inert (some [])

/-- C5: on any reachable state, a swipe of magnitude at most 50 (such as
49) causes no transition at all; a swipe of magnitude above 50 (such as
51) performs exactly one `nextSlide` transition when `startX > endX` and
exactly one `prevSlide` transition when `startX < endX`. -/
theorem C5_swipe_threshold (n i : Nat) (startX endX : Int) (hn : 1 ≤ n) (hi : i < n) :
    ((startX - endX).natAbs ≤ 50 → handleSwipe (canon n i) startX endX = .ok (canon n i)) ∧
    (50 < (startX - endX).natAbs → endX < startX →
      handleSwipe (canon n i) startX endX = .ok (canon n ((i + 1) % n))) ∧
    (50 < (startX - endX).natAbs → startX < endX →
      handleSwipe (canon n i) startX endX = .ok (canon n ((i + n - 1) % n))) := by
  refine ⟨?_, ?_, ?_⟩
  · intro h
    simp only [handleSwipe]
    rw [if_neg (Nat.not_lt.mpr h)]
  · intro h hlt
    simp only [handleSwipe]
    rw [if_pos h, if_pos (Int.sub_pos.mpr hlt)]
    exact nextSlide_canon hi
  · intro h hlt
    simp only [handleSwipe]
    rw [if_pos h, if_neg (show ¬ (0 : Int) < startX - endX by omega)]
    exact prevSlide_canon hi

/-- Witness for C5 on a three-slide deck showing slide 0: magnitude 49 is
ignored, magnitude 51 leftward advances to 1, magnitude 51 rightward goes
back to 2. -/
theorem C5_witness :
    handleSwipe (canon 3 0) 149 100 = .ok (canon 3 0) ∧
    handleSwipe (canon 3 0) 151 100 = .ok (canon 3 1) ∧
    handleSwipe (canon 3 0) 100 151 = .ok (canon 3 2) :=
  ⟨(C5_swipe_threshold 3 0 149 100 (by decide) (by decide)).1 (by decide),
   (C5_swipe_threshold 3 0 151 100 (by decide) (by decide)).2.1 (by decide) (by decide),
   (C5_swipe_threshold 3 0 100 151 (by decide) (by decide)).2.2 (by decide) (by decide)⟩

/-- C6: on a deck with `n ≥ 1` slides, `nextSlide` at index `n − 1` wraps
to index 0 and `prevSlide` at index 0 wraps to index `n − 1`. -/
theorem C6_wraparound (n : Nat) (hn : 1 ≤ n) :
    nextSlide (canon n (n - 1)) = .ok (canon n 0) ∧
    prevSlide (canon n 0) = .ok (canon n (n - 1)) := by
  constructor
  · have h := nextSlide_canon (n := n) (i := n - 1) (by omega)
    rwa [show (n - 1 + 1) % n = 0 by rw [Nat.sub_add_cancel hn, Nat.mod_self]] at h
  · have h := prevSlide_canon (n := n) (i := 0) (by omega)
    rwa [show (0 + n - 1) % n = n - 1 by rw [Nat.zero_add]; exact Nat.mod_eq_of_lt (by omega)] at h

/-- Witness for C6 at `n = 3`. -/
theorem C6_witness :
    nextSlide (canon 3 2) = .ok (canon 3 0) ∧ prevSlide (canon 3 0) = .ok (canon 3 2) :=
  C6_wraparound 3 (by decide)

/-- C7 counterexample: two successive `startAutoPlay()` calls leave two
intervals armed (start is not idempotent), and the following
`stopAutoPlay()` cancels only the newest one: interval 1, whose handle was
overwritten, stays armed (a dangling timer) even though the handle field
is cleared. -/
theorem C7_counterexample :
    (startAutoPlay (startAutoPlay initAutoPlay)).armed = [1, 2] ∧
    1 < (startAutoPlay (startAutoPlay initAutoPlay)).armed.length ∧
    (stopAutoPlay (startAutoPlay (startAutoPlay initAutoPlay))).armed = [1] ∧
    (stopAutoPlay (startAutoPlay (startAutoPlay initAutoPlay))).autoPlayInterval = none := by
  exact ⟨by decide, by decide, by decide, by decide⟩

/-- C7 amended: each `startAutoPlay` call arms one additional interval and
overwrites the handle with the new interval's id, so repeated starts
accumulate concurrent timers; `stopAutoPlay` cancels exactly the interval
named by the handle and clears it, so start-then-stop removes only the
newest interval — no timer is left pending only when no other interval was
armed before the start. -/
theorem C7_start_stop (a : AutoPlayState) (hfresh : a.nextId ∉ a.armed) :
    (startAutoPlay a).armed.length = a.armed.length + 1 ∧
    (startAutoPlay a).autoPlayInterval = some a.nextId ∧
    (stopAutoPlay (startAutoPlay a)).autoPlayInterval = none ∧
    (stopAutoPlay (startAutoPlay a)).armed = a.armed ∧
    (a.armed = [] → (stopAutoPlay (startAutoPlay a)).armed = []) := by
  have herase : (a.armed ++ [a.nextId]).erase a.nextId = a.armed := by
    rw [List.erase_append_right _ hfresh, List.erase_cons_head, List.append_nil]
  refine ⟨by simp [startAutoPlay], rfl, rfl, ?_, ?_⟩
  · simp only [stopAutoPlay, startAutoPlay]
    exact herase
  · intro h
    simp only [stopAutoPlay, startAutoPlay]
    rw [herase, h]

/-- Witness for C7's amended statement, from a state with interval 5 armed
and id 7 fresh. -/
theorem C7_witness :
    (startAutoPlay ⟨[5], 7, some 5⟩).armed.length = 2 ∧
    (startAutoPlay ⟨[5], 7, some 5⟩).autoPlayInterval = some 7 ∧
    (stopAutoPlay (startAutoPlay ⟨[5], 7, some 5⟩)).autoPlayInterval = none ∧
    (stopAutoPlay (startAutoPlay ⟨[5], 7, some 5⟩)).armed = [5] ∧
    (([5] : List Nat) = [] → (stopAutoPlay (startAutoPlay ⟨[5], 7, some 5⟩)).armed = []) :=
  C7_start_stop ⟨[5], 7, some 5⟩ (by decide)

/-- C8: construction with `n ≥ 1` slides and an (empty) indicator
container succeeds with all navigation listeners attached, creates exactly
one dot per slide appended in slide order (targets = `0, …, n−1`), each
wired so that clicking dot `j` runs `showSlide j`, and initializes the
display at `currentIndex = 0` with slide 0 active. -/
theorem C8_construction (n : Nat) (slides0 : List Bool) (hn : 1 ≤ n)
    (hlen : slides0.length = n) :
    construct slides0 (some []) = .ok { state := canon n 0, listenersAttached := true } ∧
    (canon n 0).dots = some (canonDots n 0) ∧
    (canonDots n 0).map Dot.target = List.range n ∧
    (canonDots n 0).length = n ∧
    (canon n 0).currentIndex = some 0 ∧
    activeExactlyAt (canon n 0) 0 ∧
    ∀ j, j < n → clickDot (canon n 0) j = showSlide (canon n 0) (some (j : Int)) := by
  refine ⟨?_, rfl, canonDots_map_target n 0, by simp [canonDots], rfl,
    activeExactlyAt_canon, ?_⟩
  · have hne : ¬ slides0.length = 0 := by omega
    have htgt : ((List.range slides0.length).map fun i => (⟨i, false⟩ : Dot)).map Dot.target
        = List.range n := by
      rw [hlen]
      simp only [List.map_map, Function.comp]
      exact List.map_id' _
    have hshow : showSlide
        { slides := slides0,
          dots := some ((List.range slides0.length).map fun i => (⟨i, false⟩ : Dot)),
          currentIndex := some 0 } (some 0) = .ok (canon n 0) := by
      have h := showSlide_canon
        { slides := slides0,
          dots := some ((List.range slides0.length).map fun i => (⟨i, false⟩ : Dot)),
          currentIndex := some 0 } n _ 0 hlen rfl htgt (by omega)
      simpa using h
    simp only [construct, hne, if_false, List.nil_append]
    rw [hshow]
  · intro j hj
    have hget : (canonDots n 0)[j]? = some (⟨j, decide (j = 0)⟩ : Dot) := by
      rw [canonDots, List.getElem?_map, List.getElem?_range hj]
      rfl
    simp only [clickDot, canon, hget]

/-- Witness for C8 on two slides: construction lands on the canonical
initial state with listeners attached, and clicking dot 1 is `showSlide 1`. -/
theorem C8_witness :
    construct [false, false] (some []) = .ok { state := canon 2 0, listenersAttached := true } ∧
    clickDot (canon 2 0) 1 = showSlide (canon 2 0) (some ((1 : Nat) : Int)) :=
  ⟨(C8_construction 2 [false, false] (by decide) rfl).1,
   (C8_construction 2 [false, false] (by decide) rfl).2.2.2.2.2.2 1 (by decide)⟩

/-- C9: on a deck with `n ≥ 1` slides, dots as created by `createDots`,
and any valid `currentIndex = i`, `prevSlide` right after `nextSlide`
restores `currentIndex` to `i`, and `nextSlide` right after `prevSlide`
does likewise. -/
theorem C9_roundtrip (n : Nat) (s : SliderState) (ds : List Dot) (i : Nat)
    (hlen : s.slides.length = n) (hds : s.dots = some ds)
    (ht : ds.map Dot.target = List.range n)
    (hidx : s.currentIndex = some (i : Int)) (hi : i < n) :
    (∃ t u, nextSlide s = .ok t ∧ prevSlide t = .ok u ∧ u.currentIndex = some (i : Int)) ∧
    (∃ t u, prevSlide s = .ok t ∧ nextSlide t = .ok u ∧ u.currentIndex = some (i : Int)) := by
  have hn : 0 < n := by omega
  constructor
  · refine ⟨canon n ((i + 1) % n), canon n ((((i + 1) % n) + n - 1) % n),
      nextSlide_shape s n ds i hlen hds ht hidx hi,
      prevSlide_canon (Nat.mod_lt _ hn), ?_⟩
    have harith : (((i + 1) % n) + n - 1) % n = i := by
      rw [show ((i + 1) % n + n - 1) = ((i + 1) % n + (n - 1)) by omega, Nat.mod_add_mod,
        show (i + 1 + (n - 1)) = i + n by omega, Nat.add_mod_right]
      exact Nat.mod_eq_of_lt hi
    rw [harith]
    rfl
  · refine ⟨canon n ((i + n - 1) % n), canon n ((((i + n - 1) % n) + 1) % n),
      prevSlide_shape s n ds i hlen hds ht hidx hi,
      nextSlide_canon (Nat.mod_lt _ hn), ?_⟩
    have harith : (((i + n - 1) % n) + 1) % n = i := by
      rw [Nat.mod_add_mod, show (i + n - 1 + 1) = i + n by omega, Nat.add_mod_right]
      exact Nat.mod_eq_of_lt hi
    rw [harith]
    rfl

/-- Witness for C9 on a three-slide deck showing slide 1. -/
theorem C9_witness :
    (∃ t u, nextSlide (canon 3 1) = .ok t ∧ prevSlide t = .ok u ∧
      u.currentIndex = some ((1 : Nat) : Int)) ∧
    (∃ t u, prevSlide (canon 3 1) = .ok t ∧ nextSlide t = .ok u ∧
      u.currentIndex = some ((1 : Nat) : Int)) :=
  C9_roundtrip 3 (canon 3 1) (canonDots 3 1) 1 rfl rfl (by decide) rfl (by decide)

/-- C10: calling `showSlide` with an out-of-range index on a deck with
`n ≥ 1` slides is not atomic: the thrown TypeError leaves the deck with
`currentIndex` set to the invalid index and no slide marked active (the
dots are not yet touched). -/
theorem C10_out_of_range_not_atomic (s : SliderState) (n : Nat) (v : Int) (hn : 1 ≤ n)
    (hlen : s.slides.length = n) (hv : ¬ ((0 : Int) ≤ v ∧ v < (n : Int))) :
    ∃ e, showSlide s (some v) = .error e ∧ e.currentIndex = some v ∧
      e.slides.length = n ∧
      (∀ j, (h : j < e.slides.length) → e.slides.get ⟨j, h⟩ = false) ∧
      e.dots = s.dots := by
  refine ⟨{ slides := s.slides.map fun _ => false, dots := s.dots, currentIndex := some v },
    ?_, rfl, by simpa using hlen, ?_, rfl⟩
  · simp only [showSlide, idxValid, hlen]
    rw [if_neg hv]
  · intro j h
    simp only [List.get_eq_getElem, List.getElem_map]

/-- Witness for C10: `showSlide 5` on a one-slide deck. -/
theorem C10_witness :
    ∃ e, showSlide (canon 1 0) (some 5) = .error e ∧ e.currentIndex = some 5 ∧
      e.slides.length = 1 ∧
      (∀ j, (h : j < e.slides.length) → e.slides.get ⟨j, h⟩ = false) ∧
      e.dots = (canon 1 0).dots :=
  C10_out_of_range_not_atomic (canon 1 0) 1 5 (by decide) rfl (by decide)

end PrSite
